import Mathlib

/-!
Verification development for the image-bot source (`src/image.py`).

The Python program is shallowly embedded: pure functions become Lean
functions, the process-wide `random` generator becomes an explicitly
threaded state `g : Nat` driven by an abstract `RandomModule` (the
`random` library is an external collaborator; only the interface the
program relies on — seeding determines the stream, each bounded draw
returns a value below its bound and advances the state — is modelled),
the filesystem of temporary artifact files becomes a `List String` of
existing paths, and the fallible external providers (OpenAI generation,
HTTP download, Telegram send, Instagram upload) become environment
records describing each call's outcome.  Timestamps are `Int` minutes.
-/

/-- Interface of the process-wide `random` module as used by the program:
`seedF` is `random.seed` (the post-seed generator state is a function of
the seed alone), `randbelowF g n` is one `_randbelow(n)` draw from state
`g`, returning the drawn value and the advanced state.  `random.choice`
and `random.randint` are derived from it exactly as in CPython. -/
structure RandomModule where
  seedF : Int → Nat
  randbelowF : Nat → Nat → Nat × Nat
  randbelow_lt : ∀ g n, 0 < n → (randbelowF g n).1 < n

/-- `random.choice(seq)`: `seq[_randbelow(len(seq))]`, advancing the state. -/
def randChoice (rm : RandomModule) (l : List String) (g : Nat) : String × Nat :=
  let r := rm.randbelowF g l.length
  (l.getD r.1 "", r.2)

/-- Python truthiness of an `Optional[int]`: `None` and `0` are falsy. -/
def pyTruthy : Option Int → Bool
  | none => false
  | some s => s != 0

/-- `self.style_prompts` (source lines 184–195). -/
def style_prompts : List String :=
  ["abstract expressionist painting with bold brushstrokes and vibrant colors",
   "minimalist geometric composition with flowing organic shapes",
   "surreal dreamscape with floating elements and ethereal lighting",
   "contemporary digital art with gradient textures and modern aesthetics",
   "abstract landscape with atmospheric depth and rich color palette",
   "fluid art with marbled patterns and iridescent surfaces",
   "cubist-inspired composition with fragmented forms and bold contrasts",
   "psychedelic abstract art with swirling patterns and neon colors",
   "watercolor abstract with soft blending and translucent layers",
   "mixed media collage with textural elements and artistic depth"]

/-- `self.color_themes` (source lines 198–209). -/
def color_themes : List String :=
  ["warm sunset colors of orange, pink, and gold",
   "cool ocean blues and turquoise with white accents",
   "earth tones of brown, beige, and forest green",
   "monochromatic black and white with gray gradients",
   "vibrant rainbow spectrum with bold saturation",
   "pastel palette of soft pink, lavender, and mint",
   "metallic tones of silver, copper, and bronze",
   "jewel tones of emerald, sapphire, and ruby",
   "autumn colors of burgundy, amber, and deep orange",
   "arctic palette of ice blue, silver, and pristine white"]

/-- `textures` (source line 224). -/
def textures : List String :=
  ["smooth", "textured", "rough", "silky", "crystalline", "organic"]

/-- `moods` (source line 225). -/
def moods : List String :=
  ["serene", "dynamic", "mysterious", "energetic", "contemplative", "bold"]

/-- `create_abstract_prompt` (source lines 215–239).  `if seed:` reseeds the
process-wide generator (truthiness test, so `seed = 0` does not reseed);
four `random.choice` draws follow in source order (style, colour theme,
texture, mood); the result threads the mutated global generator state. -/
def create_abstract_prompt (rm : RandomModule) (user_input : String)
    (seed : Option Int) (g0 : Nat) : String × Nat :=
  let g1 := if pyTruthy seed then rm.seedF (seed.getD 0) else g0
  let sres := randChoice rm style_prompts g1
  let cres := randChoice rm color_themes sres.2
  let tres := randChoice rm textures cres.2
  let mres := randChoice rm moods tres.2
  let prompt :=
    if user_input ≠ "" then
      user_input ++ ", " ++ sres.1 ++ ", featuring " ++ cres.1 ++ ", with " ++
        tres.1 ++ " textures, creating a " ++ mres.1 ++ " atmosphere"
    else
      sres.1 ++ ", featuring " ++ cres.1 ++ ", with " ++ tres.1 ++
        " textures, creating a " ++ mres.1 ++ " atmosphere"
  (prompt ++ ", high resolution, artistic masterpiece, professional digital art",
   mres.2)

/-- `generate_random_seed` (source lines 211–213): `random.randint(1000000,
9999999)`, i.e. `1000000 + _randbelow(9000000)` in CPython. -/
def generate_random_seed (rm : RandomModule) (g : Nat) : Int × Nat :=
  let r := rm.randbelowF g 9000000
  ((1000000 : Int) + (r.1 : Int), r.2)

/-- A concrete instantiation of the `random` interface used for witnesses and
counterexamples: the state counts the draws made, `seedF` maps the seed to a
definite state. -/
def counterRng : RandomModule where
  seedF s := s.natAbs
  randbelowF g n := (g % n, g + 1)
  randbelow_lt := fun _ _ hn => Nat.mod_lt _ hn

/-- Spec-side composition of the derived prompt (§4.1 of the spec), for the
refinement comparison of C6: the optional `rawInput` leading segment is a
conditional prefix — omitted entirely when empty — followed by the four
drawn entries in order and the fixed quality-enhancer suffix. -/
def synthesizeSpecCompose (u style ct tx md : String) : String :=
  (if u = "" then "" else u ++ ", ") ++ style ++ ", featuring " ++ ct ++
    ", with " ++ tx ++ " textures, creating a " ++ md ++ " atmosphere" ++
    ", high resolution, artistic masterpiece, professional digital art"

/-- Spec-side synthesis (§4.1): seed, then draw style, colour theme, texture,
mood in that fixed order, then compose via `synthesizeSpecCompose`. -/
def synthesizeSpec (rm : RandomModule) (u : String) (seed : Option Int)
    (g0 : Nat) : String × Nat :=
  let g1 := if pyTruthy seed then rm.seedF (seed.getD 0) else g0
  let s1 := randChoice rm style_prompts g1
  let s2 := randChoice rm color_themes s1.2
  let s3 := randChoice rm textures s2.2
  let s4 := randChoice rm moods s3.2
  (synthesizeSpecCompose u s1.1 s2.1 s3.1 s4.1, s4.2)

/-- A scheduled post as appended by `schedule_post` (source lines 312–317):
`time` is the due timestamp (modelled in integer minutes). -/
structure Post where
  time : Int
  user_input : String
  chat_id : Int
  seed : Int
  deriving DecidableEq, Repr

/-- Outcome of `download_image`'s `tempfile` interaction (source lines
266–279): the temporary file is created with `delete=False`, so an
exception raised after creation leaves the file on disk while the caught
exception still makes the function return `None`. -/
inductive FetchResult where
  | ok (path : String)
  | failClean
  | failPartial (path : String)
  deriving DecidableEq, Repr

/-- Behaviour of the external collaborators for one pipeline run:
`gen_result = none` models an exception caught inside `generate_image`
(which then returns `None`); `telegram_exc` models `reply_photo` raising in
`generate_command`; `has_instagram` is whether `self.instagram_client` was
configured; `upload_result` is what `upload_photo` yields (exceptions inside
`upload_to_instagram` are caught and also yield `False`). -/
structure StageEnv where
  gen_result : Option String
  fetch : FetchResult
  telegram_exc : Bool
  has_instagram : Bool
  upload_result : Bool
  deriving DecidableEq, Repr

/-- Observable events of one run, for ordering properties: stage calls plus
the scheduler's dispatch (`runStart`/`runEnd`) and queue-removal (`popQ`)
steps. -/
inductive Ev where
  | genCall
  | fetchCall
  | deliver
  | publishAttempt
  | runStart (p : Post)
  | runEnd (p : Post)
  | popQ (p : Post)
  deriving DecidableEq, Repr

/-- `generate_image` (source lines 241–264): appends the seed-reference
suffix only when the seed is truthy, then calls the generation provider.
Returns the provider outcome together with the prompt actually sent. -/
def generate_image (env : StageEnv) (prompt : String) (seed : Option Int) :
    Option String × String :=
  let prompt :=
    if pyTruthy seed then
      prompt ++ " (artistic style reference: " ++ toString (seed.getD 0) ++ ")"
    else prompt
  (env.gen_result, prompt)

/-- `download_image` (source lines 266–279) acting on the set of existing
temporary files. -/
def download_image (fr : FetchResult) (fs : List String) :
    Option String × List String :=
  match fr with
  | .ok p => (some p, p :: fs)
  | .failClean => (none, fs)
  | .failPartial p => (none, p :: fs)

/-- `upload_to_instagram` (source lines 281–306): returns `False` when no
client is configured or the upload fails; the `finally` block deletes the
local file on every exit, including the `return False` paths. -/
def upload_to_instagram (env : StageEnv) (image_path : String)
    (fs : List String) : Bool × List String :=
  let success := if env.has_instagram then env.upload_result else false
  (success, fs.erase image_path)

/-- The Instagram caption built by `process_scheduled_post` (source lines
379–387); the decorative header and hashtag block are transcribed in
abbreviated ASCII form — only determinism and the truncation of
`user_input` matter to any claim. -/
def instagram_caption (user_input : String) (seed : Int) : String :=
  "Scheduled Abstract Art Post - AI-generated abstract artwork - " ++
    "Prompt inspiration: \"" ++ user_input.take 50 ++ "...\" - " ++
    "Generated with seed: " ++ toString seed ++ " - #AbstractArt"

/-- `process_scheduled_post` (source lines 355–394): prompt synthesis, then
generation, download and Instagram upload with an early `return` after a
failed generation or download; the surrounding `try`/`except` (and the
`try`/`except` inside every stage) swallows stage exceptions, so the
function always returns.  Result: the advanced generator state, the
filesystem, and the event trace of the run. -/
def process_scheduled_post (rm : RandomModule) (env : StageEnv) (p : Post)
    (g : Nat) (fs : List String) : Nat × List String × List Ev :=
  let pr := create_abstract_prompt rm p.user_input (some p.seed) g
  let gi := generate_image env pr.1 (some p.seed)
  match gi.1 with
  | none => (pr.2, fs, [.genCall])
  | some _ =>
    let dl := download_image env.fetch fs
    match dl.1 with
    | none => (pr.2, dl.2, [.genCall, .fetchCall])
    | some image_path =>
      let up := upload_to_instagram env image_path dl.2
      (pr.2, up.2, [.genCall, .fetchCall, .publishAttempt])

/-- The stage events of one `process_scheduled_post` run depend only on the
environment (which stages are reached). -/
def stageEvs (env : StageEnv) : List Ev :=
  match env.gen_result with
  | none => [.genCall]
  | some _ =>
    match env.fetch with
    | .ok _ => [.genCall, .fetchCall, .publishAttempt]
    | _ => [.genCall, .fetchCall]

/-- Python's `list.pop(index)`. -/
def popAt (l : List Post) (i : Nat) : List Post := l.take i ++ l.drop (i + 1)

/-- The scan of `run_scheduler` (source lines 336–339): `enumerate` the
queue and keep the indexed posts with `current_time >= post['time']`. -/
def dueIdx (now : Int) (posts : List Post) : List (Nat × Post) :=
  posts.enum.filter (fun ip => decide (ip.2.time ≤ now))

/-- State threaded through one scheduler tick. -/
structure TickState where
  queue : List Post
  processed : List Post
  g : Nat
  fs : List String
  trace : List Ev
  deriving Repr

/-- One `process`-and-`pop` step of the tick loop (source lines 342–344). -/
def tickStep (rm : RandomModule) (envf : Post → StageEnv) (st : TickState)
    (ip : Nat × Post) : TickState :=
  let r := process_scheduled_post rm (envf ip.2) ip.2 st.g st.fs
  { queue := popAt st.queue ip.1
    processed := st.processed ++ [ip.2]
    g := r.1
    fs := r.2.1
    trace := st.trace ++ [Ev.runStart ip.2] ++ r.2.2 ++
      [Ev.runEnd ip.2, Ev.popQ ip.2] }

/-- One tick of `run_scheduler` (source lines 331–346): scan for due posts,
then for each, in reversed scan order, run `process_scheduled_post` and
`pop` the post by its scan index. -/
def run_scheduler_tick (rm : RandomModule) (envf : Post → StageEnv)
    (now : Int) (posts : List Post) (g : Nat) (fs : List String) : TickState :=
  (dueIdx now posts).reverse.foldl (tickStep rm envf)
    { queue := posts, processed := [], g := g, fs := fs, trace := [] }

/-- State threaded through the polling loop. -/
structure LoopState where
  queue : List Post
  g : Nat
  fs : List String
  processedAll : List (List Post)
  traceAll : List (List Ev)

/-- One interval of the polling loop: run a tick on the current queue and
record its processed list and trace. -/
def loopStep (rm : RandomModule) (envf : Post → StageEnv) (st : LoopState)
    (now : Int) : LoopState :=
  let t := run_scheduler_tick rm envf now st.queue st.g st.fs
  { queue := t.queue, g := t.g, fs := t.fs
    processedAll := st.processedAll ++ [t.processed]
    traceAll := st.traceAll ++ [t.trace] }

/-- The `while True` polling loop of `run_scheduler` over a given list of
tick times: the per-tick body is total (every stage failure is caught), so
the loop performs one tick per interval, indefinitely. -/
def run_scheduler_loop (rm : RandomModule) (envf : Post → StageEnv)
    (ticks : List Int) (q0 : List Post) (g0 : Nat) (fs0 : List String) :
    LoopState :=
  ticks.foldl (loopStep rm envf)
    { queue := q0, g := g0, fs := fs0, processedAll := [], traceAll := [] }

/-- `schedule_post` (source lines 308–325): build the post record with
`time = now + delay_minutes` and a freshly generated seed, and append it to
the shared list. -/
def schedule_post (rm : RandomModule) (posts : List Post) (now : Int)
    (delay_minutes : Int) (user_input : String) (chat_id : Int) (g : Nat) :
    List Post × Int × Nat :=
  let scheduled_time := now + delay_minutes
  let sd := generate_random_seed rm g
  (posts ++ [{ time := scheduled_time, user_input := user_input,
               chat_id := chat_id, seed := sd.1 }],
   scheduled_time, sd.2)

/-- Folding `list.pop(index)` over a list of indices. -/
def popsDesc (l : List Post) (idxs : List Nat) : List Post :=
  idxs.foldl popAt l

/-- The micro-step interleaving trace of one tick: the pairs
(posts dispatched so far, current queue) observable by a concurrent
`status_command` snapshot (source lines 440–452) between the scheduler's
atomic list operations — after the scan, after each `asyncio.run` dispatch,
and after each `pop`. -/
def tickStates (posts : List Post) (now : Int) :
    List (List Post × List Post) :=
  let step := fun (acc : List Post × List Post × List (List Post × List Post))
      (ip : Nat × Post) =>
    let dispatched := acc.1 ++ [ip.2]
    let q' := popAt acc.2.1 ip.1
    (dispatched, q', acc.2.2 ++ [(dispatched, acc.2.1), (dispatched, q')])
  ((dueIdx now posts).reverse.foldl step
    ([], posts, [(([] : List Post), posts)])).2.2

/-- Queue evolution of one tick when a concurrently arriving post `j` is
appended to the shared list after the first `k` pops of the tick (the
scan indices were computed before the append; appends land at the end of
the list, pops address their original indices). -/
def tickQueueWithAdd (posts : List Post) (now : Int) (j : Post) (k : Nat) :
    List Post :=
  let idxs := ((dueIdx now posts).map Prod.fst).reverse
  popsDesc (popsDesc posts (idxs.take k) ++ [j]) (idxs.drop k)

/-- Outcome classification of one `generate_command` run. -/
inductive Outcome where
  | genFailed
  | fetchFailed
  | deliveryFailed
  | published
  | generatedOnly
  deriving DecidableEq, Repr

/-- Modelled from the spec: the tail of `generate_command` after the
Telegram send — `src/image.py` is truncated at line 529 in the middle of
the Instagram-caption literal, so the remaining publish call is not in
`src/`.  Per §4.4 steps 4–5 (and mirroring `process_scheduled_post`), it
attempts the Instagram upload, whose `finally` deletes the artifact, and a
failed publish yields the partial-success outcome rather than a failure. -/
def generate_command_tail (env : StageEnv) (image_path : String)
    (fs : List String) : Outcome × List String :=
  let up := upload_to_instagram env image_path fs
  (if up.1 then .published else .generatedOnly, up.2)

/-- `generate_command` (source lines 487–529, tail spec-modelled): generate
a seed, synthesize the prompt, generate and download the image, send it to
the requester on Telegram (an exception there is caught, reported, and the
handler returns — without deleting the downloaded file), then attempt the
Instagram upload.  Returns the outcome, the filesystem, the event trace
and the advanced generator state. -/
def generate_command (rm : RandomModule) (env : StageEnv) (user_input : String)
    (g : Nat) (fs : List String) : Outcome × List String × List Ev × Nat :=
  let sd := generate_random_seed rm g
  let pr := create_abstract_prompt rm user_input (some sd.1) sd.2
  let gi := generate_image env pr.1 (some sd.1)
  match gi.1 with
  | none => (.genFailed, fs, [.genCall], pr.2)
  | some _ =>
    let dl := download_image env.fetch fs
    match dl.1 with
    | none => (.fetchFailed, dl.2, [.genCall, .fetchCall], pr.2)
    | some image_path =>
      if env.telegram_exc then
        (.deliveryFailed, dl.2, [.genCall, .fetchCall, .deliver], pr.2)
      else
        let tl := generate_command_tail env image_path dl.2
        (tl.1, tl.2, [.genCall, .fetchCall, .deliver, .publishAttempt], pr.2)

/-- A demonstration post used by witnesses and counterexamples. -/
def p0demo : Post := { time := 9, user_input := "ocean", chat_id := 1, seed := 1234567 }

/-- An environment in which every stage succeeds. -/
def envAllOk : StageEnv :=
  { gen_result := some "https://img/1", fetch := .ok "tmp1.png",
    telegram_exc := false, has_instagram := true, upload_result := true }

/-- An environment in which the Telegram delivery raises. -/
def envDeliverFail : StageEnv :=
  { envAllOk with telegram_exc := true }

/-- An environment in which the Instagram upload fails. -/
def envUploadFail : StageEnv :=
  { envAllOk with upload_result := false }

/-- An environment in which the generation stage fails. -/
def envGenFail : StageEnv :=
  { envAllOk with gen_result := none }

/-- An environment with no Instagram credentials configured. -/
def envNoInsta : StageEnv :=
  { envAllOk with has_instagram := false }

/-- A demonstration post due exactly at the drain time `T = 10`. -/
def pT : Post := { time := 10, user_input := "b", chat_id := 1, seed := 2 }

/-- A demonstration post due at `T + 1 = 11`. -/
def pT1 : Post := { time := 11, user_input := "c", chat_id := 1, seed := 3 }

/-! ### List and enumeration lemmas -/

theorem enumFrom_shift {α : Type} (n : Nat) (l : List α) :
    List.enumFrom (n + 1) l = (List.enumFrom n l).map (fun ip => (ip.1 + 1, ip.2)) := by
  induction l generalizing n with
  | nil => rfl
  | cons x xs ih => simp only [List.enumFrom, List.map_cons, ih (n + 1)]

theorem filter_map_pair {α β : Type} (f : α → β) (p : β → Bool) (l : List α) :
    (l.map f).filter p = (l.filter (fun a => p (f a))).map f := by
  induction l with
  | nil => rfl
  | cons x xs ih => by_cases h : p (f x) <;> simp [h, ih]

theorem enumFrom_filter_snd {α : Type} (q : α → Bool) (n : Nat) (l : List α) :
    ((List.enumFrom n l).filter (fun ip => q ip.2)).map Prod.snd = l.filter q := by
  induction l generalizing n with
  | nil => rfl
  | cons x xs ih => by_cases h : q x <;> simp [List.enumFrom, h, ih]

theorem dueIdx_map_snd (now : Int) (posts : List Post) :
    (dueIdx now posts).map Prod.snd =
      posts.filter (fun p => decide (p.time ≤ now)) := by
  simpa [dueIdx, List.enum] using
    enumFrom_filter_snd (fun p : Post => decide (p.time ≤ now)) 0 posts

theorem dueIdxFst_cons (now : Int) (x : Post) (xs : List Post) :
    (dueIdx now (x :: xs)).map Prod.fst =
      (if x.time ≤ now then [0] else []) ++
        ((dueIdx now xs).map Prod.fst).map (· + 1) := by
  have hshift : List.enumFrom 1 xs =
      (List.enumFrom 0 xs).map (fun ip => (ip.1 + 1, ip.2)) := enumFrom_shift 0 xs
  have hfm := filter_map_pair (fun ip : Nat × Post => (ip.1 + 1, ip.2))
      (fun ip : Nat × Post => decide (ip.2.time ≤ now)) (List.enumFrom 0 xs)
  by_cases h : x.time ≤ now <;>
    simp [dueIdx, List.enum, List.enumFrom, hshift, hfm, h,
      Function.comp, List.map_map]

theorem popAt_zero (x : Post) (l : List Post) : popAt (x :: l) 0 = l := rfl

theorem popAt_succ_cons (x : Post) (l : List Post) (i : Nat) :
    popAt (x :: l) (i + 1) = x :: popAt l i := rfl

theorem popsDesc_nil (l : List Post) : popsDesc l [] = l := rfl

theorem popsDesc_append_idxs (l : List Post) (I J : List Nat) :
    popsDesc l (I ++ J) = popsDesc (popsDesc l I) J := by
  simp [popsDesc, List.foldl_append]

theorem popsDesc_map_succ (J : List Nat) :
    ∀ (x : Post) (l : List Post),
      popsDesc (x :: l) (J.map (· + 1)) = x :: popsDesc l J := by
  induction J with
  | nil => intro x l; rfl
  | cons j J ih =>
    intro x l
    show popsDesc (popAt (x :: l) (j + 1)) (J.map (· + 1)) =
      x :: popsDesc (popAt l j) J
    rw [popAt_succ_cons]
    exact ih x (popAt l j)

theorem popsDesc_dueIdx (now : Int) :
    ∀ posts : List Post,
      popsDesc posts ((dueIdx now posts).map Prod.fst).reverse =
        posts.filter (fun p => !decide (p.time ≤ now)) := by
  intro posts
  induction posts with
  | nil => rfl
  | cons x xs ih =>
    rw [dueIdxFst_cons, List.reverse_append, popsDesc_append_idxs,
      ← List.map_reverse, popsDesc_map_succ, ih]
    by_cases h : x.time ≤ now
    · rw [if_pos h]
      simp [popsDesc, popAt_zero, List.filter_cons, h]
    · rw [if_neg h]
      simp [popsDesc, List.filter_cons, h]

/-! ### Tick and loop characterizations -/

theorem process_evs (rm : RandomModule) (env : StageEnv) (p : Post) (g : Nat)
    (fs : List String) :
    (process_scheduled_post rm env p g fs).2.2 = stageEvs env := by
  cases h : env.gen_result <;> cases hf : env.fetch <;>
    simp [process_scheduled_post, stageEvs, generate_image, download_image, h, hf]

/-- The per-post event block emitted by the scheduler for one dispatched
post. -/
def evBlock (envf : Post → StageEnv) (p : Post) : List Ev :=
  [Ev.runStart p] ++ stageEvs (envf p) ++ [Ev.runEnd p, Ev.popQ p]

theorem tickStep_foldl (rm : RandomModule) (envf : Post → StageEnv)
    (L : List (Nat × Post)) :
    ∀ init : TickState,
      ((L.foldl (tickStep rm envf) init).queue =
        popsDesc init.queue (L.map Prod.fst)) ∧
      ((L.foldl (tickStep rm envf) init).processed =
        init.processed ++ L.map Prod.snd) ∧
      ((L.foldl (tickStep rm envf) init).trace =
        init.trace ++ (L.map (fun ip => evBlock envf ip.2)).flatten) := by
  induction L with
  | nil => intro init; exact ⟨rfl, by simp, by simp⟩
  | cons ip L ih =>
    intro init
    obtain ⟨h1, h2, h3⟩ := ih (tickStep rm envf init ip)
    refine ⟨?_, ?_, ?_⟩
    · rw [List.foldl_cons, h1]
      simp [tickStep, popsDesc]
    · rw [List.foldl_cons, h2]
      simp [tickStep]
    · rw [List.foldl_cons, h3]
      simp [tickStep, evBlock, process_evs]

theorem tick_queue (rm : RandomModule) (envf : Post → StageEnv) (now : Int)
    (posts : List Post) (g : Nat) (fs : List String) :
    (run_scheduler_tick rm envf now posts g fs).queue =
      posts.filter (fun p => !decide (p.time ≤ now)) := by
  have h := (tickStep_foldl rm envf (dueIdx now posts).reverse
    { queue := posts, processed := [], g := g, fs := fs, trace := [] }).1
  rw [run_scheduler_tick, h, List.map_reverse]
  exact popsDesc_dueIdx now posts

theorem tick_processed (rm : RandomModule) (envf : Post → StageEnv) (now : Int)
    (posts : List Post) (g : Nat) (fs : List String) :
    (run_scheduler_tick rm envf now posts g fs).processed =
      (posts.filter (fun p => decide (p.time ≤ now))).reverse := by
  have h := (tickStep_foldl rm envf (dueIdx now posts).reverse
    { queue := posts, processed := [], g := g, fs := fs, trace := [] }).2.1
  rw [run_scheduler_tick, h, List.map_reverse, dueIdx_map_snd]
  simp

theorem tick_trace (rm : RandomModule) (envf : Post → StageEnv) (now : Int)
    (posts : List Post) (g : Nat) (fs : List String) :
    (run_scheduler_tick rm envf now posts g fs).trace =
      ((dueIdx now posts).reverse.map (fun ip => evBlock envf ip.2)).flatten := by
  have h := (tickStep_foldl rm envf (dueIdx now posts).reverse
    { queue := posts, processed := [], g := g, fs := fs, trace := [] }).2.2
  rw [run_scheduler_tick, h]
  simp

theorem tick_perm (rm : RandomModule) (envf : Post → StageEnv) (now : Int)
    (posts : List Post) (g : Nat) (fs : List String) :
    List.Perm
      ((run_scheduler_tick rm envf now posts g fs).processed ++
        (run_scheduler_tick rm envf now posts g fs).queue)
      posts := by
  rw [tick_processed, tick_queue]
  exact ((List.reverse_perm _).append_right _).trans
    (List.filter_append_perm _ posts)

theorem loop_nodup_inv (rm : RandomModule) (envf : Post → StageEnv)
    (ticks : List Int) :
    ∀ st : LoopState, (st.processedAll.flatten ++ st.queue).Nodup →
      (((ticks.foldl (loopStep rm envf) st).processedAll.flatten ++
        (ticks.foldl (loopStep rm envf) st).queue)).Nodup := by
  induction ticks with
  | nil => intro st h; exact h
  | cons t ts ih =>
    intro st h
    rw [List.foldl_cons]
    apply ih
    have hp := tick_perm rm envf t st.queue st.g st.fs
    have hperm :
        List.Perm (st.processedAll.flatten ++ st.queue)
          ((loopStep rm envf st t).processedAll.flatten ++
            (loopStep rm envf st t).queue) := by
      simp only [loopStep, List.flatten_append, List.flatten_cons, List.flatten_nil,
        List.append_nil, List.append_assoc]
      exact List.Perm.append_left _ hp.symm
    exact hperm.nodup h

theorem loop_length (rm : RandomModule) (envf : Post → StageEnv)
    (ticks : List Int) :
    ∀ st : LoopState,
      (ticks.foldl (loopStep rm envf) st).processedAll.length =
        st.processedAll.length + ticks.length := by
  induction ticks with
  | nil => intro st; rfl
  | cons t ts ih =>
    intro st
    rw [List.foldl_cons, ih]
    simp [loopStep]
    omega

theorem popsDesc_single (l : List Post) (i : Nat) :
    popsDesc l [i] = popAt l i := rfl

theorem popsDesc_take_drop_add (now : Int) :
    ∀ (posts : List Post) (k : Nat) (j : Post),
      popsDesc
        (popsDesc posts (((dueIdx now posts).map Prod.fst).reverse.take k) ++ [j])
        (((dueIdx now posts).map Prod.fst).reverse.drop k) =
      posts.filter (fun p => !decide (p.time ≤ now)) ++ [j] := by
  intro posts
  induction posts with
  | nil =>
    intro k j
    simp [dueIdx, popsDesc]
  | cons x xs ih =>
    intro k j
    rw [dueIdxFst_cons, List.reverse_append, ← List.map_reverse]
    by_cases h : x.time ≤ now
    · rw [if_pos h, List.reverse_singleton]
      by_cases hk : k ≤ (dueIdx now xs).length
      · have hk' : k ≤ ((((dueIdx now xs).map Prod.fst).reverse).map
            (· + 1)).length := by simpa using hk
        rw [List.take_append_of_le_length hk',
          List.drop_append_of_le_length hk',
          ← List.map_take, ← List.map_drop, popsDesc_map_succ,
          List.cons_append, popsDesc_append_idxs, popsDesc_map_succ,
          popsDesc_single, popAt_zero, ih k j]
        simp [List.filter_cons, h]
      · push_neg at hk
        have hk1 : ((((dueIdx now xs).map Prod.fst).reverse).map (· + 1) ++
            [0]).length ≤ k := by simp; omega
        rw [List.take_of_length_le hk1, List.drop_eq_nil_of_le hk1,
          popsDesc_nil, popsDesc_append_idxs, popsDesc_map_succ,
          popsDesc_single, popAt_zero, popsDesc_dueIdx]
        simp [List.filter_cons, h]
    · rw [if_neg h, List.reverse_nil, List.append_nil]
      by_cases hk : k ≤ (dueIdx now xs).length
      · have hk' : k ≤ ((((dueIdx now xs).map Prod.fst).reverse).map
            (· + 1)).length := by simpa using hk
        rw [← List.map_take, ← List.map_drop, popsDesc_map_succ,
          List.cons_append, popsDesc_map_succ, ih k j]
        simp [List.filter_cons, h]
      · push_neg at hk
        have hk1 : ((((dueIdx now xs).map Prod.fst).reverse).map
            (· + 1)).length ≤ k := by simp; omega
        rw [List.take_of_length_le hk1, List.drop_eq_nil_of_le hk1,
          popsDesc_nil, popsDesc_map_succ, List.cons_append,
          popsDesc_dueIdx]
        simp [List.filter_cons, h]

/-! ### Synthesis lemmas -/

theorem create_abstract_prompt_reseed (rm : RandomModule) (u : String)
    (s : Int) (hs : s ≠ 0) (g g' : Nat) :
    create_abstract_prompt rm u (some s) g =
      create_abstract_prompt rm u (some s) g' := by
  have ht : pyTruthy (some s) = true := by simp [pyTruthy, bne_iff_ne, hs]
  simp [create_abstract_prompt, ht]

theorem randChoice_mem (rm : RandomModule) (l : List String) (g : Nat)
    (h : l ≠ []) : (randChoice rm l g).1 ∈ l := by
  have hlt := rm.randbelow_lt g l.length (List.length_pos.mpr h)
  simp only [randChoice]
  rw [List.getD_eq_getElem l "" hlt]
  exact List.getElem_mem hlt

theorem empty_str_append (s : String) : "" ++ s = s := by cases s; rfl

theorem create_eq_synthesizeSpec (rm : RandomModule) (u : String)
    (seed : Option Int) (g : Nat) :
    create_abstract_prompt rm u seed g = synthesizeSpec rm u seed g := by
  by_cases hu : u = ""
  · subst hu
    simp [create_abstract_prompt, synthesizeSpec, synthesizeSpecCompose,
      empty_str_append]
  · simp [create_abstract_prompt, synthesizeSpec, synthesizeSpecCompose, hu]

/-! ### Trace shape lemmas -/

theorem tick_trace_block (rm : RandomModule) (envf : Post → StageEnv)
    (now : Int) (posts : List Post) (g : Nat) (fs : List String) (p : Post)
    (hp : p ∈ posts) (hd : p.time ≤ now) :
    ∃ pre post, (run_scheduler_tick rm envf now posts g fs).trace =
      pre ++ [Ev.runEnd p, Ev.popQ p] ++ post := by
  have hmem : p ∈ (dueIdx now posts).map Prod.snd := by
    rw [dueIdx_map_snd]
    exact List.mem_filter.mpr ⟨hp, by simpa using hd⟩
  obtain ⟨ip, hip, hsnd⟩ := List.mem_map.mp hmem
  obtain ⟨s, t, hst⟩ := List.append_of_mem (List.mem_reverse.mpr hip)
  refine ⟨(s.map (fun q => evBlock envf q.2)).flatten ++
    ([Ev.runStart p] ++ stageEvs (envf p)),
    (t.map (fun q => evBlock envf q.2)).flatten, ?_⟩
  rw [tick_trace, hst]
  simp [evBlock, hsnd, List.append_assoc]

theorem due_not_in_queue (rm : RandomModule) (envf : Post → StageEnv)
    (now : Int) (posts : List Post) (g : Nat) (fs : List String) (p : Post)
    (hd : p.time ≤ now) :
    p ∉ (run_scheduler_tick rm envf now posts g fs).queue := by
  rw [tick_queue]
  intro hmem
  have hq := (List.mem_filter.mp hmem).2
  simp [hd] at hq

theorem loop_flatten_nodup (rm : RandomModule) (envf : Post → StageEnv)
    (ticks : List Int) (q0 : List Post) (g0 : Nat) (fs0 : List String)
    (h : q0.Nodup) :
    (run_scheduler_loop rm envf ticks q0 g0 fs0).processedAll.flatten.Nodup := by
  have hinv := loop_nodup_inv rm envf ticks
    { queue := q0, g := g0, fs := fs0, processedAll := [], traceAll := [] }
    (by simpa using h)
  exact hinv.of_append_left

/-! ### Claim C4 -/

/-- C4 counterexample: the claim quantifies over every supplied seed, but a
supplied seed of `0` fails the `if seed:` truthiness test, so no reseed
happens and the second of two identical calls continues from the generator
state the first call left behind — at `rawInput = "x"`, `seed = 0`,
initial generator state `0`, the two calls yield different prompts. -/
theorem c4_seed_zero_counterexample :
    ¬ ((create_abstract_prompt counterRng "x" (some 0)
        ((create_abstract_prompt counterRng "x" (some 0) 0).2)).1 =
      (create_abstract_prompt counterRng "x" (some 0) 0).1) := by decide

/-- C4 (amended): for every `(rawInput, seed)` with a nonzero seed supplied,
two calls of `create_abstract_prompt` with identical arguments produce
byte-identical derived prompts — the second call starts from the generator
state the first call left, and the reseed makes the result independent of
it. -/
theorem c4_two_run_determinism (rm : RandomModule) (u : String) (s : Int)
    (g : Nat) (hs : s ≠ 0) :
    (create_abstract_prompt rm u (some s)
      ((create_abstract_prompt rm u (some s) g).2)).1 =
    (create_abstract_prompt rm u (some s) g).1 := by
  rw [create_abstract_prompt_reseed rm u s hs
    ((create_abstract_prompt rm u (some s) g).2) g]

/-- C4 witness: the amended determinism at `("ocean waves", 1234567)`. -/
theorem c4_two_run_determinism_witness : (1234567 : Int) ≠ 0 ∧
    (create_abstract_prompt counterRng "ocean waves" (some 1234567)
      ((create_abstract_prompt counterRng "ocean waves" (some 1234567) 0).2)).1 =
    (create_abstract_prompt counterRng "ocean waves" (some 1234567) 0).1 :=
  ⟨by decide,
   c4_two_run_determinism counterRng "ocean waves" 1234567 0 (by decide)⟩

/-! ### Claim C5 -/

/-- C5 counterexample: prompt synthesis does not use a call-local random
source — it reseeds and advances the process-wide generator, so the global
state after a synthesis call differs from the state before it (here: state
`0` becomes state `9` after `random.seed(5)` and four draws under the
concrete generator model). -/
theorem c5_global_state_counterexample :
    ¬ ((create_abstract_prompt counterRng "" (some 5) 0).2 = 0) := by decide

/-- C5 (amended): synthesis mutates the process-wide generator (it is not
call-local), but because `random.seed(seed)` fixes the generator state for
any nonzero seed, the derived prompt for a fixed `(rawInput, seed ≠ 0)` is
independent of the ambient global generator state: two runs from any two
ambient states agree. -/
theorem c5_output_noninterference (rm : RandomModule) (u : String) (s : Int)
    (g1 g2 : Nat) (hs : s ≠ 0) :
    (create_abstract_prompt rm u (some s) g1).1 =
      (create_abstract_prompt rm u (some s) g2).1 := by
  rw [create_abstract_prompt_reseed rm u s hs g1 g2]

/-- C5 witness: noninterference at seed `7` between ambient states `0` and
`123`. -/
theorem c5_output_noninterference_witness : (7 : Int) ≠ 0 ∧
    (create_abstract_prompt counterRng "waves" (some 7) 0).1 =
      (create_abstract_prompt counterRng "waves" (some 7) 123).1 :=
  ⟨by decide, c5_output_noninterference counterRng "waves" 7 0 123 (by decide)⟩

/-! ### Claim C6 -/

/-- C6: the synthesized prompt draws one entry from each of the four fixed
vocabularies in the fixed order style, colour theme, texture, mood, and is
the concatenation of `rawInput` (omitted entirely when empty), the four
drawn entries in that order and the fixed quality-enhancer suffix:
`create_abstract_prompt` coincides with the spec-side `synthesizeSpec`,
and its output is `synthesizeSpecCompose` applied to members of the four
vocabularies. -/
theorem c6_prompt_structure (rm : RandomModule) (u : String)
    (seed : Option Int) (g : Nat) :
    create_abstract_prompt rm u seed g = synthesizeSpec rm u seed g ∧
    ∃ st ∈ style_prompts, ∃ ct ∈ color_themes, ∃ tx ∈ textures,
      ∃ md ∈ moods, (create_abstract_prompt rm u seed g).1 =
        synthesizeSpecCompose u st ct tx md := by
  refine ⟨create_eq_synthesizeSpec rm u seed g, ?_⟩
  rw [create_eq_synthesizeSpec rm u seed g]
  exact ⟨_, randChoice_mem rm style_prompts _ (by decide),
    _, randChoice_mem rm color_themes _ (by decide),
    _, randChoice_mem rm textures _ (by decide),
    _, randChoice_mem rm moods _ (by decide), rfl⟩

/-! ### Claim C10 -/

/-- C10: a supplied seed of `0` is falsy under `if seed:`, so
`create_abstract_prompt` behaves exactly as if no seed had been supplied
(no reseed — the result depends on the ambient generator state, witnessed
concretely), `generate_image` likewise omits the seed-reference suffix for
seed `0`, and internally generated seeds always lie in
`[1000000, 9999999]`, hence are always truthy and never hit this case. -/
theorem c10_zero_seed_behaviour :
    (∀ (rm : RandomModule) (u : String) (g : Nat),
       create_abstract_prompt rm u (some 0) g =
         create_abstract_prompt rm u none g) ∧
    ¬ ((create_abstract_prompt counterRng "x" (some 0) 0).1 =
        (create_abstract_prompt counterRng "x" (some 0) 4).1) ∧
    (∀ (env : StageEnv) (p : String),
       (generate_image env p (some 0)).2 = p) ∧
    (∀ (rm : RandomModule) (g : Nat),
       1000000 ≤ (generate_random_seed rm g).1 ∧
         (generate_random_seed rm g).1 ≤ 9999999 ∧
         pyTruthy (some (generate_random_seed rm g).1) = true) := by
  refine ⟨?_, by decide, ?_, ?_⟩
  · intro rm u g
    simp [create_abstract_prompt, pyTruthy]
  · intro env p
    simp [generate_image, pyTruthy]
  · intro rm g
    have hlt := rm.randbelow_lt g 9000000 (by norm_num)
    simp only [generate_random_seed, pyTruthy, bne_iff_ne]
    refine ⟨by omega, by omega, by omega⟩

/-! ### Claim C1 -/

/-- C1: a drain at `now` removes, and hands to the pipeline, exactly the
jobs with `dueAt ≤ now` at call time (inclusive comparison), and across any
sequence of ticks — with arbitrary per-job stage failures — no job is ever
returned twice: the concatenation of all ticks' processed lists is
duplicate-free whenever the initial queue is. -/
theorem c1_drain_exact_no_duplicates :
    (∀ (rm : RandomModule) (envf : Post → StageEnv) (now : Int)
       (posts : List Post) (g : Nat) (fs : List String),
        List.Perm (run_scheduler_tick rm envf now posts g fs).processed
          (posts.filter (fun p => decide (p.time ≤ now))) ∧
        (run_scheduler_tick rm envf now posts g fs).queue =
          posts.filter (fun p => !decide (p.time ≤ now))) ∧
    (∀ (rm : RandomModule) (envf : Post → StageEnv) (ticks : List Int)
       (q0 : List Post) (g0 : Nat) (fs0 : List String), q0.Nodup →
        (run_scheduler_loop rm envf ticks q0 g0
          fs0).processedAll.flatten.Nodup) := by
  constructor
  · intro rm envf now posts g fs
    refine ⟨?_, tick_queue rm envf now posts g fs⟩
    rw [tick_processed]
    exact List.reverse_perm _
  · intro rm envf ticks q0 g0 fs0 h
    exact loop_flatten_nodup rm envf ticks q0 g0 fs0 h

/-- C1 witness: jobs due at `T - 1 = 9`, `T = 10`, `T + 1 = 11` with a
drain at `T = 10` — the no-duplication conclusion instantiated on that
queue (the drained set being exactly the first two is the quantved first
conjunct of the theorem, which has no hypothesis). -/
theorem c1_witness :
    ([p0demo, pT, pT1] : List Post).Nodup ∧
    (run_scheduler_loop counterRng (fun _ => envAllOk) [10]
      [p0demo, pT, pT1] 0 []).processedAll.flatten.Nodup :=
  ⟨by decide,
   c1_drain_exact_no_duplicates.2 counterRng (fun _ => envAllOk) [10]
     [p0demo, pT, pT1] 0 [] (by decide)⟩

/-! ### Claim C2 -/

/-- C2 counterexample: dispatch and removal are not atomic — in the
concrete one-job tick the `pop` event occurs strictly after the job's
pipeline run has completed (`runEnd` precedes `popQ` in the trace),
refuting "removed atomically with dispatch, never after completion". -/
theorem c2_pop_after_run_counterexample :
    Ev.popQ p0demo ∈ (run_scheduler_tick counterRng (fun _ => envAllOk) 10
      [p0demo] 0 []).trace ∧
    (run_scheduler_tick counterRng (fun _ => envAllOk) 10
        [p0demo] 0 []).trace.indexOf (Ev.runEnd p0demo) <
      (run_scheduler_tick counterRng (fun _ => envAllOk) 10
        [p0demo] 0 []).trace.indexOf (Ev.popQ p0demo) := by decide

/-- C2 (amended): a dispatched job is removed immediately after its pipeline
run returns — the tick trace contains the contiguous pair `runEnd p`,
`popQ p` — within the same tick; the removal is unconditional (stage
failures are caught and cannot prevent it), the job is gone from the queue
when the tick ends, and across any sequence of ticks it is dispatched at
most once. -/
theorem c2_removed_after_run_never_redispatched (rm : RandomModule)
    (envf : Post → StageEnv) (now : Int) (posts : List Post) (g : Nat)
    (fs : List String) (p : Post) (hp : p ∈ posts) (hd : p.time ≤ now) :
    (∃ pre post, (run_scheduler_tick rm envf now posts g fs).trace =
        pre ++ [Ev.runEnd p, Ev.popQ p] ++ post) ∧
    p ∉ (run_scheduler_tick rm envf now posts g fs).queue ∧
    (∀ (ticks : List Int) (q0 : List Post) (g0 : Nat) (fs0 : List String),
       q0.Nodup →
       (run_scheduler_loop rm envf ticks q0 g0
         fs0).processedAll.flatten.count p ≤ 1) := by
  refine ⟨tick_trace_block rm envf now posts g fs p hp hd,
    due_not_in_queue rm envf now posts g fs p hd, ?_⟩
  intro ticks q0 g0 fs0 hq
  exact List.nodup_iff_count_le_one.mp
    (loop_flatten_nodup rm envf ticks q0 g0 fs0 hq) p

/-- C2 witness: the amended property at the concrete one-job queue. -/
theorem c2_witness :
    (p0demo ∈ [p0demo] ∧ p0demo.time ≤ (10 : Int) ∧
      ([p0demo] : List Post).Nodup) ∧
    (∃ pre post, (run_scheduler_tick counterRng (fun _ => envAllOk) 10
        [p0demo] 0 []).trace =
        pre ++ [Ev.runEnd p0demo, Ev.popQ p0demo] ++ post) ∧
    p0demo ∉ (run_scheduler_tick counterRng (fun _ => envAllOk) 10
      [p0demo] 0 []).queue ∧
    (run_scheduler_loop counterRng (fun _ => envAllOk) [10] [p0demo] 0
      []).processedAll.flatten.count p0demo ≤ 1 := by
  refine ⟨⟨by decide, by decide, by decide⟩, ?_⟩
  obtain ⟨h1, h2, h3⟩ := c2_removed_after_run_never_redispatched counterRng
    (fun _ => envAllOk) 10 [p0demo] 0 [] p0demo (by decide) (by decide)
  exact ⟨h1, h2, h3 [10] [p0demo] 0 [] (by decide)⟩

/-! ### Claim C3 -/

/-- C3: a failure while processing one due job never prevents the other due
jobs of the same tick from being processed, and never terminates the
polling loop — the loop performs exactly one tick per interval for any
failure environment, the processed list of a tick is independent of the
failure environment and of all threaded state, and every due job of a tick
is in its processed list. -/
theorem c3_failure_isolation :
    (∀ (rm : RandomModule) (envf : Post → StageEnv) (ticks : List Int)
       (q0 : List Post) (g0 : Nat) (fs0 : List String),
        (run_scheduler_loop rm envf ticks q0 g0 fs0).processedAll.length =
          ticks.length) ∧
    (∀ (rm rm' : RandomModule) (envf envf' : Post → StageEnv) (now : Int)
       (posts : List Post) (g g' : Nat) (fs fs' : List String),
        (run_scheduler_tick rm envf now posts g fs).processed =
          (run_scheduler_tick rm' envf' now posts g' fs').processed) ∧
    (∀ (rm : RandomModule) (envf : Post → StageEnv) (now : Int)
       (posts : List Post) (g : Nat) (fs : List String) (p : Post),
        p ∈ posts → p.time ≤ now →
        p ∈ (run_scheduler_tick rm envf now posts g fs).processed) := by
  refine ⟨?_, ?_, ?_⟩
  · intro rm envf ticks q0 g0 fs0
    have h := loop_length rm envf ticks
      { queue := q0, g := g0, fs := fs0, processedAll := [], traceAll := [] }
    simpa [run_scheduler_loop] using h
  · intro rm rm' envf envf' now posts g g' fs fs'
    rw [tick_processed, tick_processed]
  · intro rm envf now posts g fs p hp hd
    rw [tick_processed]
    exact List.mem_reverse.mpr (List.mem_filter.mpr ⟨hp, by simpa using hd⟩)

/-- C3 witness: with the first job's generation failing, the second due job
of the same tick is still processed. -/
theorem c3_witness :
    (pT ∈ [p0demo, pT] ∧ pT.time ≤ (10 : Int)) ∧
    pT ∈ (run_scheduler_tick counterRng
      (fun p => if p = p0demo then envGenFail else envAllOk) 10
      [p0demo, pT] 0 []).processed :=
  ⟨⟨by decide, by decide⟩,
   c3_failure_isolation.2.2 counterRng
     (fun p => if p = p0demo then envGenFail else envAllOk) 10
     [p0demo, pT] 0 [] pT (by decide) (by decide)⟩

/-! ### Claim C9 -/

/-- C9 counterexample: the scan-dispatch-pop sequence is not executed under
mutual exclusion — with one due job, the interleaving point between the
job's dispatch and its `pop` exposes a state in which the
already-dispatched job is still visible to a concurrent status snapshot,
refuting "the status snapshot never observes a job mid-removal". -/
theorem c9_snapshot_mid_removal_counterexample :
    ¬ (∀ σ ∈ tickStates [p0demo] 10, ∀ p ∈ σ.1, p ∉ σ.2) := by decide

/-- C9 (amended): the shared list's individual operations are atomic, but a
drain is not one exclusive section; still no job is lost or duplicated by
interleaving: a job appended after any number `k` of the tick's pops is
not dispatched in that tick and survives in the final queue exactly once,
and the tick dispatches exactly the jobs due at scan time. -/
theorem c9_interleaved_add_linearizes (posts : List Post) (now : Int)
    (j : Post) (k : Nat) (rm : RandomModule) (envf : Post → StageEnv)
    (g : Nat) (fs : List String) (hj : j ∉ posts) :
    tickQueueWithAdd posts now j k =
      posts.filter (fun p => !decide (p.time ≤ now)) ++ [j] ∧
    j ∉ (run_scheduler_tick rm envf now posts g fs).processed ∧
    List.Perm (run_scheduler_tick rm envf now posts g fs).processed
      (posts.filter (fun p => decide (p.time ≤ now))) := by
  refine ⟨popsDesc_take_drop_add now posts k j, ?_, ?_⟩
  · rw [tick_processed]
    intro hmem
    exact hj (List.mem_filter.mp (List.mem_reverse.mp hmem)).1
  · rw [tick_processed]
    exact List.reverse_perm _

/-- C9 witness: a job appended between the two pops of a two-job drain is
untouched by the drain and remains queued exactly once. -/
theorem c9_witness :
    (pT1 ∉ [p0demo, pT]) ∧
    tickQueueWithAdd [p0demo, pT] 10 pT1 1 =
      ([p0demo, pT].filter (fun p => !decide (p.time ≤ (10 : Int)))) ++ [pT1] ∧
    pT1 ∉ (run_scheduler_tick counterRng (fun _ => envAllOk) 10
      [p0demo, pT] 0 []).processed :=
  ⟨by decide,
   (c9_interleaved_add_linearizes [p0demo, pT] 10 pT1 1 counterRng
     (fun _ => envAllOk) 0 [] (by decide)).1,
   (c9_interleaved_add_linearizes [p0demo, pT] 10 pT1 1 counterRng
     (fun _ => envAllOk) 0 [] (by decide)).2.1⟩

/-! ### Claim C7 -/

/-- C7 counterexample: a run that fails at the delivery hook (the Telegram
send raises) returns with the downloaded artifact still on disk — the
`except` handler replies with an error and `return`s without any cleanup —
refuting "on every exit path from the fetch stage onward the local
artifact temporary file no longer exists when the run returns". -/
theorem c7_delivery_leak_counterexample :
    envDeliverFail.fetch = FetchResult.ok "tmp1.png" ∧
    "tmp1.png" ∈ (generate_command counterRng envDeliverFail "x" 0 []).2.1 := by
  decide

/-- C7 (amended): exits through the publish stage always delete the
artifact — `upload_to_instagram`'s `finally` removes the file on success,
failure and skipped publishing — so a scheduled run whose fetch succeeded
ends with the file gone, as does a `generate_command` run whose delivery
hook did not raise; but a fetch that fails after creating the file leaves
it on disk (last conjunct), and a failed delivery hook returns with the
artifact still present (the counterexample). -/
theorem c7_cleanup_on_publish_paths (rm : RandomModule) (env : StageEnv)
    (p : Post) (u : String) (g g' : Nat) (fs fs' : List String)
    (path : String) (hf : env.fetch = FetchResult.ok path)
    (hnf : path ∉ fs) (hnf' : path ∉ fs') :
    path ∉ (process_scheduled_post rm env p g fs).2.1 ∧
    (env.telegram_exc = false →
      path ∉ (generate_command rm env u g' fs').2.1) ∧
    (∀ (q : String) (fs0 : List String),
      (download_image (FetchResult.failPartial q) fs0).1 = none ∧
        (download_image (FetchResult.failPartial q) fs0).2 = q :: fs0) := by
  refine ⟨?_, ?_, fun q fs0 => ⟨rfl, rfl⟩⟩
  · cases hg : env.gen_result with
    | none => simpa [process_scheduled_post, generate_image, hg] using hnf
    | some url =>
      simpa [process_scheduled_post, generate_image, hg, hf, download_image,
        upload_to_instagram, List.erase_cons_head] using hnf
  · intro ht
    cases hg : env.gen_result with
    | none => simpa [generate_command, generate_image, hg] using hnf'
    | some url =>
      simpa [generate_command, generate_image, hg, hf, download_image, ht,
        generate_command_tail, upload_to_instagram, List.erase_cons_head]
        using hnf'

/-- C7 witness: with a failing Instagram upload, both the scheduled run and
the immediate run end with the artifact deleted. -/
theorem c7_witness :
    (envUploadFail.fetch = FetchResult.ok "tmp1.png" ∧
      "tmp1.png" ∉ ([] : List String)) ∧
    "tmp1.png" ∉
      (process_scheduled_post counterRng envUploadFail p0demo 0 []).2.1 ∧
    (envUploadFail.telegram_exc = false →
      "tmp1.png" ∉ (generate_command counterRng envUploadFail "x" 0 []).2.1) := by
  refine ⟨⟨rfl, by decide⟩, ?_⟩
  have h := c7_cleanup_on_publish_paths counterRng envUploadFail p0demo "x"
    0 0 [] [] "tmp1.png" rfl (by decide) (by decide)
  exact ⟨h.1, h.2.1⟩

/-! ### Claim C8 -/

/-- C8: when the publish step fails — including the case where publish
credentials are absent and publishing is skipped — a `generate_command`
run on a valid request (generation and fetch succeed, the delivery hook
does not raise) yields the partial-success outcome `generatedOnly`,
distinct from a generation failure, and the delivery hook is invoked
exactly once, before the publish attempt. -/
theorem c8_generated_only_on_publish_failure (rm : RandomModule)
    (env : StageEnv) (u : String) (g : Nat) (fs : List String)
    (url path : String)
    (hg : env.gen_result = some url) (hf : env.fetch = FetchResult.ok path)
    (ht : env.telegram_exc = false)
    (hpub : env.has_instagram = false ∨ env.upload_result = false) :
    (generate_command rm env u g fs).1 = Outcome.generatedOnly ∧
    (generate_command rm env u g fs).2.2.1 =
      [Ev.genCall, Ev.fetchCall, Ev.deliver, Ev.publishAttempt] ∧
    (generate_command rm env u g fs).2.2.1.count Ev.deliver = 1 ∧
    (generate_command rm env u g fs).2.2.1.indexOf Ev.deliver <
      (generate_command rm env u g fs).2.2.1.indexOf Ev.publishAttempt ∧
    Outcome.generatedOnly ≠ Outcome.genFailed := by
  have hupfalse : (if env.has_instagram then env.upload_result else false) =
      false := by
    rcases hpub with h | h <;> simp [h]
  have htr : (generate_command rm env u g fs).2.2.1 =
      [Ev.genCall, Ev.fetchCall, Ev.deliver, Ev.publishAttempt] := by
    simp [generate_command, generate_image, hg, hf, download_image, ht,
      generate_command_tail, upload_to_instagram]
  refine ⟨?_, htr, ?_, ?_, by decide⟩
  · simp [generate_command, generate_image, hg, hf, download_image, ht,
      generate_command_tail, upload_to_instagram, hupfalse]
  · rw [htr]; decide
  · rw [htr]; decide

/-- C8 witness: with Instagram credentials absent, the run on a valid
request is `generatedOnly` and the delivery hook ran exactly once. -/
theorem c8_witness :
    (envNoInsta.gen_result = some "https://img/1" ∧
      envNoInsta.fetch = FetchResult.ok "tmp1.png" ∧
      envNoInsta.telegram_exc = false ∧
      (envNoInsta.has_instagram = false ∨ envNoInsta.upload_result = false)) ∧
    (generate_command counterRng envNoInsta "x" 0 []).1 =
      Outcome.generatedOnly ∧
    (generate_command counterRng envNoInsta "x" 0 []).2.2.1.count
      Ev.deliver = 1 := by
  refine ⟨⟨rfl, rfl, rfl, Or.inl rfl⟩, ?_⟩
  have h := c8_generated_only_on_publish_failure counterRng envNoInsta "x" 0
    [] "https://img/1" "tmp1.png" rfl rfl rfl (Or.inl rfl)
  exact ⟨h.1, h.2.2.1⟩
